import Mathlib

/-!
Shallow embedding of the S3-to-GCS single-object replication core
(`src/app.py`, class `ReplicationService`), together with theorems that
settle the specification's claims about it.

Modelling conventions:
* Python exceptions become `Except PyError`; an exception "escaping" a
  function is an `Except.error` result.
* The Python exception hierarchy is flattened into `ErrFamily` tags: the
  tuple caught by `_retry_with_backoff` (`ClientError`, `BotoCoreError`,
  `GoogleAPIError`) plus the other exception classes the code raises or
  handles (`FileNotFoundError`, `ValueError`, `TypeError`-like others).
* The two object stores are association lists inside a `World`; each
  store call is deterministic over the world, and error injection for the
  existence check is modelled by `GcsCheckOps`.
* `time.sleep` is modelled by recording the computed wait in a trace;
  `time.strftime` by a `now` string carried in the world.
-/

/-- Exception families relevant to `app.py`: the three classes caught by
`_retry_with_backoff`, plus `FileNotFoundError` (raised by
`_get_s3_metadata`), `ValueError` (raised by `replicate`), and a catch-all
for anything else. -/
inductive ErrFamily where
  | clientError
  | botoCoreError
  | googleAPIError
  | fileNotFoundError
  | valueError
  | otherError
deriving DecidableEq, Repr

/-- A Python exception value: its class family, the remote error code when
one exists (e.g. the boto3 `Error.Code` field), and its message. -/
structure PyError where
  family : ErrFamily
  code : String
  msg : String
deriving DecidableEq, Repr

/-- The `except (ClientError, BotoCoreError, gcs_exceptions.GoogleAPIError)`
clause of `_retry_with_backoff` (src/app.py:99): exactly these families are
caught; every other exception propagates uncaught. -/
def classifyCaught (e : PyError) : Bool :=
  match e.family with
  | ErrFamily.clientError => true
  | ErrFamily.botoCoreError => true
  | ErrFamily.googleAPIError => true
  | _ => false

/-- Following the specification's error taxonomy (section 7), not the code:
a permanent remote error is an auth failure, a permission denial, or a
malformed request — errors the spec says must never be retried. -/
def specPermanentRemote (e : PyError) : Bool :=
  e.code == "AccessDenied" || e.code == "AuthFailure" || e.code == "MalformedRequest"

/-- Observable behaviour of one `_retry_with_backoff` run: the value it
returns or the exception that escapes (`Except.ok none` models Python's
implicit `return None` when the `for` loop body never executes), how many
times the wrapped operation was invoked, and the sequence of computed
back-off waits passed to `time.sleep`. -/
structure RetryTrace (α : Type) where
  result : Except PyError (Option α)
  calls : Nat
  waits : List Nat
deriving Repr

/-- The `for attempt in range(MAX_RETRIES)` loop of `_retry_with_backoff`
(src/app.py:96-108). `a` is the current zero-indexed attempt, `k` the
number of loop iterations remaining; the predecessor `k = 0` is the
`attempt == MAX_RETRIES - 1` test. The wrapped operation is a function of
the attempt index so that per-attempt outcomes can be specified. -/
def retryGo {α : Type} (op : Nat → Except PyError α) : Nat → Nat → RetryTrace α
  | _, 0 => ⟨Except.ok none, 0, []⟩
  | a, k + 1 =>
    match op a with
    | Except.ok v => ⟨Except.ok (some v), 1, []⟩
    | Except.error e =>
      if classifyCaught e = false then
        ⟨Except.error e, 1, []⟩
      else if k = 0 then
        ⟨Except.error e, 1, []⟩
      else
        let rest := retryGo op (a + 1) k
        ⟨rest.result, rest.calls + 1, 2 ^ a :: rest.waits⟩

/-- Model of `ReplicationService._retry_with_backoff` (src/app.py:95-108).
`maxRetries` is the `MAX_RETRIES` configuration value, an `Int` because
`int(os.getenv('MAX_RETRIES', '3'))` can be zero or negative, in which
case `range(MAX_RETRIES)` is empty. -/
def retryWithBackoff {α : Type} (maxRetries : Int) (op : Nat → Except PyError α) :
    RetryTrace α :=
  retryGo op 0 maxRetries.toNat

/-- The expected back-off waits starting at attempt index `a`, `m` waits
long: `2 ^ a, 2 ^ (a+1), ...`. -/
def backoffWaits (a : Nat) : Nat → List Nat
  | 0 => []
  | m + 1 => 2 ^ a :: backoffWaits (a + 1) m

/-- One stored S3 object as `head_object` / `get_object` see it: the raw
(quote-wrapped) ETag, content length, last-modified stamp, and the
optional declared content type. -/
structure S3Object where
  etag : String
  size : Nat
  lastModified : String
  contentType : Option String
deriving DecidableEq, Repr

/-- One stored GCS blob: its custom metadata mapping (absent when the blob
was written without metadata) and its content type. -/
structure GcsBlob where
  metadata : Option (List (String × String))
  contentType : String
deriving DecidableEq, Repr

/-- Association-list lookup, the model of both buckets and of Python dict
`.get`: first binding for the queried key wins, `none` when absent. -/
def alookup {κ ν : Type} [DecidableEq κ] : List (κ × ν) → κ → Option ν
  | [], _ => none
  | (k, v) :: t, q => if q = k then some v else alookup t q

/-- The state of both stores, plus the wall-clock string that
`time.strftime` would produce during this invocation. -/
structure World where
  s3 : List ((String × String) × S3Object)
  gcs : List (String × GcsBlob)
  now : String
deriving DecidableEq, Repr

/-- The dict built by `_get_s3_metadata` from a `head_object` response. -/
structure S3Meta where
  etag : String
  size : Nat
  lastModified : String
deriving DecidableEq, Repr

/-- Python `str.strip('"')`: remove every leading and trailing `"`. -/
def stripQuotes (s : String) : String :=
  String.mk (((s.toList.dropWhile (· = '"')).reverse.dropWhile (· = '"')).reverse)

/-- Model of `s3_client.head_object` against the modelled store: a missing object
surfaces as a `ClientError` whose `Error.Code` is `404`. -/
def headObject (w : World) (bucket key : String) : Except PyError S3Object :=
  match alookup w.s3 (bucket, key) with
  | some o => Except.ok o
  | none => Except.error ⟨ErrFamily.clientError, "404", "Not Found"⟩

/-- Model of `ReplicationService._get_s3_metadata` (src/app.py:62-73): strips the
ETag's quotes, and converts the 404 `ClientError` into a
`FileNotFoundError`; every other error is re-raised as-is. -/
def getS3Metadata (w : World) (bucket key : String) : Except PyError S3Meta :=
  match headObject w bucket key with
  | Except.ok o => Except.ok ⟨stripQuotes o.etag, o.size, o.lastModified⟩
  | Except.error e =>
    if e.family = ErrFamily.clientError ∧ e.code = "404" then
      Except.error ⟨ErrFamily.fileNotFoundError, "",
        "S3 object not found: s3://" ++ bucket ++ "/" ++ key⟩
    else
      Except.error e

/-- The two destination-store calls `_check_gcs_exists` makes, each of
which may raise: `blob.exists()`, and the `blob.reload()` followed by
`blob.metadata.get('s3_etag') if blob.metadata else None`. Abstracting
them lets theorems quantify over injected internal errors. -/
structure GcsCheckOps where
  blobExists : Except PyError Bool
  storedEtag : Except PyError (Option String)

/-- Model of `ReplicationService._check_gcs_exists` (src/app.py:75-93): the whole
body sits in `try`/`except Exception: return False`, so any raised error
becomes a `false` answer; `true` requires existence and an exact stored
ETag match (`None == s3_etag` is `False` in Python). -/
def checkGcsExists (ops : GcsCheckOps) (s3Etag : String) : Bool :=
  match ops.blobExists with
  | Except.error _ => false
  | Except.ok false => false
  | Except.ok true =>
    match ops.storedEtag with
    | Except.error _ => false
    | Except.ok stored => stored == some s3Etag

/-- The deterministic `GcsCheckOps` induced by a world: `blob.exists()`
reports presence in the store, and the reload step reads the stored
`s3_etag` metadata entry when the blob carries metadata. -/
def gcsOpsOfWorld (w : World) (gcsKey : String) : GcsCheckOps where
  blobExists := Except.ok (alookup w.gcs gcsKey).isSome
  storedEtag :=
    Except.ok ((alookup w.gcs gcsKey).bind fun b => b.metadata.bind fun m => alookup m "s3_etag")

/-- The check `_check_gcs_exists` run against a world with no injected errors. -/
def checkGcsExistsW (w : World) (gcsKey s3Etag : String) : Bool :=
  checkGcsExists (gcsOpsOfWorld w gcsKey) s3Etag

/-- The destination key derivation of src/app.py:154: the source key
prefixed with the source bucket name and a slash. -/
def gcsKeyOf (bucket key : String) : String :=
  bucket ++ "/" ++ key

/-- Read one provenance metadata entry back from a destination blob, the
way `_check_gcs_exists` reads `s3_etag`: `none` when the blob is absent,
has no metadata, or lacks the entry. -/
def readProvenance (w : World) (gcsKey field : String) : Option String :=
  (alookup w.gcs gcsKey).bind fun b => b.metadata.bind fun m => alookup m field

/-- Model of `ReplicationService._stream_upload` (src/app.py:110-140) as a world
transformer: `get_object` fails with a `ClientError` when the source is
gone; otherwise the blob is written with the four provenance metadata
entries and the source's content type (defaulting to the generic binary
type), and the source object's full size is streamed. Returns the updated
world and the transferred byte count. -/
def streamUpload (w : World) (s3Bucket s3Key gcsKey : String) (meta : S3Meta) :
    Except PyError (World × Nat) :=
  match alookup w.s3 (s3Bucket, s3Key) with
  | none => Except.error ⟨ErrFamily.clientError, "NoSuchKey", "The specified key does not exist."⟩
  | some o =>
    let blob : GcsBlob :=
      { metadata := some
          [("s3_etag", meta.etag), ("s3_bucket", s3Bucket),
           ("s3_key", s3Key), ("replicated_at", w.now)]
        contentType := o.contentType.getD "application/octet-stream" }
    Except.ok ({ w with gcs := (gcsKey, blob) :: w.gcs }, o.size)

/-- Resource accounting for one `_stream_upload` run: whether the source
read stream was opened, whether it was closed, and the returned value or
escaping exception. -/
structure StreamTrace where
  opened : Bool
  closed : Bool
  result : Except PyError Bool
deriving Repr

/-- The `with` statement of src/app.py:128-133: the context manager closes
the stream both when the body returns and when it raises, re-raising the
body's exception after the close. -/
def withClose {α : Type} (body : Except PyError α) : Except PyError α × Bool :=
  (body, true)

/-- The exit paths of `_stream_upload` (src/app.py:110-140) with the
stream lifecycle made explicit: `getObj` is the `get_object` call (the
stream exists only if it succeeds), `upload` is the destination write
performed inside the `with` block; the outer `except` re-raises
unchanged. -/
def streamUploadTrace (getObj : Except PyError Unit) (upload : Except PyError Unit) :
    StreamTrace :=
  match getObj with
  | Except.error e => ⟨false, false, Except.error e⟩
  | Except.ok _ =>
    match withClose upload with
    | (Except.ok _, closed) => ⟨true, closed, Except.ok true⟩
    | (Except.error e, closed) => ⟨true, closed, Except.error e⟩

/-- The dicts `replicate` returns (src/app.py:157-161 and 171-177): the
code constructs only a `skipped` and a `success` shape; no failure-status
record exists. -/
inductive ReplicateResponse where
  | skipped (message gcsPath : String)
  | success (message s3Path gcsPath : String) (sizeBytes : Nat)
deriving DecidableEq, Repr

/-- The configuration `replicate` reads: `MAX_RETRIES` and
`GCS_BUCKET_NAME`. -/
structure Config where
  maxRetries : Int
  gcsBucketName : String
deriving DecidableEq, Repr

/-- Observable behaviour of one `replicate` invocation: the returned dict
or the escaping exception, the world afterwards, how many times
`_stream_upload` was invoked, and how many bytes were streamed. -/
structure ReplicateOutcome where
  result : Except PyError ReplicateResponse
  world : World
  uploadCalls : Nat
  bytesTransferred : Nat
deriving Repr

/-- The retry-wrapped source inspection of src/app.py:146-150. -/
def inspectTrace (cfg : Config) (w : World) (s3Bucket s3Key : String) : RetryTrace S3Meta :=
  retryWithBackoff cfg.maxRetries (fun _ => getS3Metadata w s3Bucket s3Key)

/-- The retry-wrapped upload of src/app.py:163-169. -/
def uploadTrace (cfg : Config) (w : World) (s3Bucket s3Key gcsKey : String) (meta : S3Meta) :
    RetryTrace (World × Nat) :=
  retryWithBackoff cfg.maxRetries (fun _ => streamUpload w s3Bucket s3Key gcsKey meta)

/-- Model of `ReplicationService.replicate` (src/app.py:142-184). A
`FileNotFoundError` is converted to a `ValueError` with the same message;
every other escaping exception is re-raised unchanged. When `MAX_RETRIES`
is non-positive the retry wrapper returns `None` and the subsequent
`s3_metadata['size']` subscript raises a `TypeError`-class exception. -/
def replicate (cfg : Config) (w : World) (s3Bucket s3Key : String) : ReplicateOutcome :=
  let inspect := inspectTrace cfg w s3Bucket s3Key
  match inspect.result with
  | Except.error e =>
    if e.family = ErrFamily.fileNotFoundError then
      ⟨Except.error ⟨ErrFamily.valueError, "", e.msg⟩, w, 0, 0⟩
    else
      ⟨Except.error e, w, 0, 0⟩
  | Except.ok none =>
    ⟨Except.error ⟨ErrFamily.otherError, "TypeError",
      "argument of type NoneType is not subscriptable"⟩, w, 0, 0⟩
  | Except.ok (some meta) =>
    let gcsKey := gcsKeyOf s3Bucket s3Key
    if checkGcsExistsW w gcsKey meta.etag then
      ⟨Except.ok (ReplicateResponse.skipped "File already exists with same content"
          ("gs://" ++ cfg.gcsBucketName ++ "/" ++ gcsKey)), w, 0, 0⟩
    else
      let up := uploadTrace cfg w s3Bucket s3Key gcsKey meta
      match up.result with
      | Except.error e =>
        if e.family = ErrFamily.fileNotFoundError then
          ⟨Except.error ⟨ErrFamily.valueError, "", e.msg⟩, w, up.calls, 0⟩
        else
          ⟨Except.error e, w, up.calls, 0⟩
      | Except.ok none =>
        ⟨Except.ok (ReplicateResponse.success "File replicated successfully"
            ("s3://" ++ s3Bucket ++ "/" ++ s3Key)
            ("gs://" ++ cfg.gcsBucketName ++ "/" ++ gcsKey) meta.size), w, up.calls, 0⟩
      | Except.ok (some (w', size)) =>
        ⟨Except.ok (ReplicateResponse.success "File replicated successfully"
            ("s3://" ++ s3Bucket ++ "/" ++ s3Key)
            ("gs://" ++ cfg.gcsBucketName ++ "/" ++ gcsKey) meta.size), w', up.calls, size⟩

/-- The HTTP status `replicate_endpoint` (src/app.py:199-229) attaches to
a `replicate` outcome: any returned dict is served with 200, an escaping
`ValueError` with 404, any other exception with 500. -/
def endpointStatus (r : Except PyError ReplicateResponse) : Nat :=
  match r with
  | Except.ok _ => 200
  | Except.error e => if e.family = ErrFamily.valueError then 404 else 500

/-- A sample configuration: default `MAX_RETRIES` and a destination bucket. -/
def cfg0 : Config := ⟨3, "dest-bucket"⟩

/-- A world with both stores empty. -/
def emptyWorld : World := ⟨[], [], "2024-01-01 00:00:00"⟩

/-- A sample source object, with the quote-wrapped ETag S3 reports. -/
def sampleObject : S3Object :=
  ⟨"\"abc123\"", 4096, "2024-01-01T00:00:00Z", some "text/plain"⟩

/-- A world holding exactly one source object and an empty destination. -/
def sampleWorld : World :=
  ⟨[(("raw-logs", "2024/01/01.log"), sampleObject)], [], "2024-01-02 03:04:05"⟩

/-- A transient failure: a client-library error, retryable by family. -/
def transientErr : PyError := ⟨ErrFamily.botoCoreError, "", "Connection timed out"⟩

/-- An operation that raises the same transient error on every attempt. -/
def alwaysTransientOp : Nat → Except PyError Unit := fun _ => Except.error transientErr

/-- A permission-denied failure, delivered by boto3 as a `ClientError`. -/
def accessDeniedError : PyError := ⟨ErrFamily.clientError, "AccessDenied", "Access Denied"⟩

/-- An operation that raises the permission-denied error on every attempt. -/
def alwaysAccessDenied : Nat → Except PyError Unit := fun _ => Except.error accessDeniedError

/-- The not-found error `_get_s3_metadata` raises, outside every caught family. -/
def notFoundErr : PyError :=
  ⟨ErrFamily.fileNotFoundError, "", "S3 object not found: s3://raw-logs/missing.log"⟩

/-- An operation that raises the not-found error on every attempt. -/
def alwaysNotFound : Nat → Except PyError Unit := fun _ => Except.error notFoundErr

/-- An operation that would succeed immediately, used to show a non-positive
retry budget never invokes it. -/
def neverInvokedOp : Nat → Except PyError Unit := fun _ => Except.ok ()

section RetryLemmas

variable {α : Type}

/-- When the first attempt succeeds, the loop returns after one call. -/
theorem retryGo_first_ok (op : Nat → Except PyError α) (a k : Nat) (v : α)
    (h : op a = Except.ok v) :
    retryGo op a (k + 1) = ⟨Except.ok (some v), 1, []⟩ := by
  simp [retryGo, h]

/-- An error outside the caught families escapes the first attempt. -/
theorem retryGo_first_uncaught (op : Nat → Except PyError α) (a k : Nat) (e : PyError)
    (h : op a = Except.error e) (hc : classifyCaught e = false) :
    retryGo op a (k + 1) = ⟨Except.error e, 1, []⟩ := by
  simp [retryGo, h, hc]

/-- With a positive budget, a first-attempt success is returned after one
invocation and no waits. -/
theorem retryWithBackoff_ok (maxRetries : Int) (op : Nat → Except PyError α) (v : α)
    (hpos : 1 ≤ maxRetries) (h : op 0 = Except.ok v) :
    retryWithBackoff maxRetries op = ⟨Except.ok (some v), 1, []⟩ := by
  have hk : maxRetries.toNat = (maxRetries.toNat - 1) + 1 := by omega
  rw [retryWithBackoff, hk]
  exact retryGo_first_ok op 0 _ v h

/-- With a positive budget, an error outside the caught families escapes
after exactly one invocation and no waits. -/
theorem retryWithBackoff_uncaught (maxRetries : Int) (op : Nat → Except PyError α)
    (e : PyError) (hpos : 1 ≤ maxRetries) (h : op 0 = Except.error e)
    (hc : classifyCaught e = false) :
    retryWithBackoff maxRetries op = ⟨Except.error e, 1, []⟩ := by
  have hk : maxRetries.toNat = (maxRetries.toNat - 1) + 1 := by omega
  rw [retryWithBackoff, hk]
  exact retryGo_first_uncaught op 0 _ e h hc

/-- The loop under an operation that always fails with a caught error:
every iteration is consumed, the waits are the exponential schedule, and
the last error escapes. -/
theorem retryGo_allFail (op : Nat → Except PyError α) (errs : Nat → PyError)
    (h : ∀ i, op i = Except.error (errs i))
    (hc : ∀ i, classifyCaught (errs i) = true) :
    ∀ k a, 1 ≤ k →
      retryGo op a k = ⟨Except.error (errs (a + k - 1)), k, backoffWaits a (k - 1)⟩ := by
  intro k
  induction k with
  | zero => intro a h1; omega
  | succ k ih =>
    intro a _
    cases k with
    | zero =>
      simp [retryGo, h a, hc a, backoffWaits]
    | succ k' =>
      have hrest := ih (a + 1) (by omega)
      have hidx : a + 1 + (k' + 1) - 1 = a + (k' + 1 + 1) - 1 := by omega
      rw [hidx] at hrest
      have hstep : retryGo op a (k' + 1 + 1) =
          ⟨(retryGo op (a + 1) (k' + 1)).result, (retryGo op (a + 1) (k' + 1)).calls + 1,
            2 ^ a :: (retryGo op (a + 1) (k' + 1)).waits⟩ := by
        conv_lhs => rw [retryGo]
        rw [h a]
        simp [hc a]
      rw [hstep, hrest]
      simp [backoffWaits]

/-- The exponential wait schedule written with `List.range`. -/
theorem backoffWaits_eq_range (m a : Nat) :
    backoffWaits a m = (List.range m).map (fun i => 2 ^ (a + i)) := by
  induction m generalizing a with
  | zero => simp [backoffWaits]
  | succ m ih =>
    rw [backoffWaits, ih (a + 1), List.range_succ_eq_map, List.map_cons, List.map_map]
    refine congrArg₂ List.cons (by rw [Nat.add_zero]) ?_
    refine List.map_congr_left ?_
    intro i _
    simp only [Function.comp_apply]
    congr 1
    omega

/-- The exponential wait schedule is strictly increasing. -/
theorem backoffWaits_pairwise (a m : Nat) :
    List.Pairwise (· < ·) (backoffWaits a m) := by
  rw [backoffWaits_eq_range]
  refine List.Pairwise.map _ ?_ (List.pairwise_lt_range m)
  intro i j hij
  exact Nat.pow_lt_pow_right (by norm_num) (by omega)

end RetryLemmas

/-- C3: an operation that raises a transient (caught-family) error on
every attempt is invoked exactly `maxRetries` times, the waits between
consecutive attempts follow the zero-indexed schedule `2 ^ 0, 2 ^ 1, ...`
and are strictly increasing, and after the final attempt the last error
is rethrown unchanged, with no wrapping. -/
theorem c3_retry_transient_exhausts {α : Type} (maxRetries : Int)
    (op : Nat → Except PyError α) (errs : Nat → PyError)
    (hop : ∀ i, op i = Except.error (errs i))
    (htr : ∀ i, classifyCaught (errs i) = true)
    (hpos : 1 ≤ maxRetries) :
    (retryWithBackoff maxRetries op).calls = maxRetries.toNat ∧
    (retryWithBackoff maxRetries op).waits =
      (List.range (maxRetries.toNat - 1)).map (fun i => 2 ^ i) ∧
    List.Pairwise (· < ·) (retryWithBackoff maxRetries op).waits ∧
    (retryWithBackoff maxRetries op).result = Except.error (errs (maxRetries.toNat - 1)) := by
  have hk : 1 ≤ maxRetries.toNat := by omega
  have hall := retryGo_allFail op errs hop htr maxRetries.toNat 0 hk
  rw [show (0 : Nat) + maxRetries.toNat - 1 = maxRetries.toNat - 1 by omega] at hall
  refine ⟨by rw [retryWithBackoff, hall], ?_, ?_, by rw [retryWithBackoff, hall]⟩
  · rw [retryWithBackoff, hall]
    show backoffWaits 0 (maxRetries.toNat - 1) = _
    rw [backoffWaits_eq_range]
    simp
  · rw [retryWithBackoff, hall]
    exact backoffWaits_pairwise 0 _

/-- Witness for C3 at the default budget of 3 and a constant transient
error: three invocations, waits 1 then 2, the error rethrown. -/
theorem c3_retry_transient_exhausts_witness :
    (1 : Int) ≤ 3 ∧
    ((retryWithBackoff 3 alwaysTransientOp).calls = (3 : Int).toNat ∧
     (retryWithBackoff 3 alwaysTransientOp).waits =
       (List.range ((3 : Int).toNat - 1)).map (fun i => 2 ^ i) ∧
     List.Pairwise (· < ·) (retryWithBackoff 3 alwaysTransientOp).waits ∧
     (retryWithBackoff 3 alwaysTransientOp).result =
       Except.error ((fun _ => transientErr) ((3 : Int).toNat - 1))) :=
  ⟨by norm_num,
   c3_retry_transient_exhausts 3 alwaysTransientOp (fun _ => transientErr)
     (fun _ => rfl) (fun _ => rfl) (by norm_num)⟩

/-- C10: a zero or negative `MAX_RETRIES` makes the `for` loop body never
run, so the wrapper returns Python's implicit `None` — a success-shaped
result — with the wrapped operation never invoked and no waits. -/
theorem c10_retry_nonpositive_budget {α : Type} (maxRetries : Int)
    (op : Nat → Except PyError α) (h : maxRetries ≤ 0) :
    retryWithBackoff maxRetries op = ⟨Except.ok none, 0, []⟩ := by
  rw [retryWithBackoff, Int.toNat_of_nonpos h]
  rfl

/-- Witness for C10 at a budget of 0 and an operation that would succeed:
the operation is never invoked and `None` comes back. -/
theorem c10_retry_nonpositive_budget_witness :
    (0 : Int) ≤ 0 ∧ retryWithBackoff 0 neverInvokedOp = ⟨Except.ok none, 0, []⟩ :=
  ⟨le_refl 0, c10_retry_nonpositive_budget 0 neverInvokedOp (le_refl 0)⟩

/-- C2 counterexample: a permission-denied failure is delivered by boto3
as a `ClientError`, which `_retry_with_backoff` catches and retries —
with the default budget the operation is invoked three times, with waits
in between, instead of being rethrown without a second attempt. -/
theorem c2_permanent_error_is_retried_cex :
    specPermanentRemote accessDeniedError = true ∧
    (retryWithBackoff 3 alwaysAccessDenied).calls = 3 ∧
    (retryWithBackoff 3 alwaysAccessDenied).waits = [1, 2] ∧
    (retryWithBackoff 3 alwaysAccessDenied).result = Except.error accessDeniedError := by
  refine ⟨by decide, rfl, rfl, rfl⟩

/-- C2 (amended): the wrapper's classification is by exception family,
not by permanence: exactly the errors outside the caught families
(`ClientError`, `BotoCoreError`, `GoogleAPIError`) are rethrown
immediately — with a positive budget such an error escapes unchanged
after exactly one invocation and no waits, while permanent remote
errors carried by those families are retried like transients. -/
theorem c2_uncaught_error_rethrown_immediately {α : Type} (maxRetries : Int)
    (op : Nat → Except PyError α) (e : PyError) (hpos : 1 ≤ maxRetries)
    (hop : op 0 = Except.error e) (hc : classifyCaught e = false) :
    retryWithBackoff maxRetries op = ⟨Except.error e, 1, []⟩ :=
  retryWithBackoff_uncaught maxRetries op e hpos hop hc

/-- Witness for the amended C2: a `FileNotFoundError` is outside every
caught family and escapes after one invocation. -/
theorem c2_uncaught_error_rethrown_immediately_witness :
    (1 : Int) ≤ 3 ∧ alwaysNotFound 0 = Except.error notFoundErr ∧
    classifyCaught notFoundErr = false ∧
    retryWithBackoff 3 alwaysNotFound = ⟨Except.error notFoundErr, 1, []⟩ :=
  ⟨by norm_num, rfl, rfl,
   c2_uncaught_error_rethrown_immediately 3 alwaysNotFound notFoundErr (by norm_num) rfl rfl⟩

/-- C4: the destination existence check answers `true` exactly when the
existence call succeeds reporting presence and the stored `s3_etag`
provenance entry reads back equal to the expected tag; absence, any
mismatch (including missing metadata), and any error raised during the
check all yield `false` — errors are swallowed, never propagated, and
never produce a skip. -/
theorem c4_checkGcsExists_true_iff (ops : GcsCheckOps) (s3Etag : String) :
    checkGcsExists ops s3Etag = true ↔
      ops.blobExists = Except.ok true ∧ ops.storedEtag = Except.ok (some s3Etag) := by
  unfold checkGcsExists
  cases hbe : ops.blobExists with
  | error e => simp
  | ok b =>
    cases b with
    | false => simp
    | true =>
      cases hse : ops.storedEtag with
      | error e => simp
      | ok stored => simp

/-- C9: over every combination of source-read and destination-write
outcomes, the source stream is closed exactly when it was opened — in
particular on success and when the destination write throws. -/
theorem c9_stream_released_every_path (getObj upload : Except PyError Unit) :
    (streamUploadTrace getObj upload).closed = (streamUploadTrace getObj upload).opened := by
  cases getObj with
  | error e => rfl
  | ok v =>
    cases upload with
    | error e => rfl
    | ok v' => rfl

/-- Cancellation of the leading slash-free segment of a slash-separated
character list: equal concatenations with slash-free prefixes force both
components to agree. -/
theorem append_slash_cancel :
    ∀ (l1 l2 r1 r2 : List Char), '/' ∉ l1 → '/' ∉ l2 →
      l1 ++ '/' :: r1 = l2 ++ '/' :: r2 → l1 = l2 ∧ r1 = r2 := by
  intro l1
  induction l1 with
  | nil =>
    intro l2 r1 r2 _ h2 heq
    cases l2 with
    | nil => simpa using heq
    | cons c t =>
      simp only [List.nil_append, List.cons_append, List.cons.injEq] at heq
      exact absurd (show '/' ∈ c :: t from by rw [← heq.1]; exact List.mem_cons_self _ _) h2
  | cons c1 t1 ih =>
    intro l2 r1 r2 h1 h2 heq
    cases l2 with
    | nil =>
      simp only [List.cons_append, List.nil_append, List.cons.injEq] at heq
      exact absurd (show '/' ∈ c1 :: t1 from by rw [← heq.1]; exact List.mem_cons_self _ _) h1
    | cons c2 t2 =>
      simp only [List.cons_append, List.cons.injEq] at heq
      obtain ⟨hc, htail⟩ := heq
      have h1' : '/' ∉ t1 := fun hm => h1 (List.mem_cons_of_mem _ hm)
      have h2' : '/' ∉ t2 := fun hm => h2 (List.mem_cons_of_mem _ hm)
      obtain ⟨hl, hr⟩ := ih t2 r1 r2 h1' h2' htail
      exact ⟨by rw [hc, hl], hr⟩

/-- C8 counterexample: the distinct pairs ("a", "b/c") and ("a/b", "c")
map to the same destination key — a cross-bucket collision of the
derivation on arbitrary strings. -/
theorem c8_gcsKeyOf_collision_cex :
    gcsKeyOf "a" "b/c" = gcsKeyOf "a/b" "c" ∧
    ¬(("a" : String) = "a/b" ∧ ("b/c" : String) = "c") := by
  refine ⟨rfl, ?_⟩
  intro h
  exact absurd h.1 (by decide)

/-- C8 (amended): the destination key is deterministically the source key
prefixed with the source bucket name and a slash, and the mapping is
collision-free provided the bucket names contain no slash (true of real
S3 bucket names): distinct pairs then map to distinct destination keys. -/
theorem c8_gcsKeyOf_injective_noSlash (b1 k1 b2 k2 : String)
    (hb1 : '/' ∉ b1.data) (hb2 : '/' ∉ b2.data)
    (heq : gcsKeyOf b1 k1 = gcsKeyOf b2 k2) : b1 = b2 ∧ k1 = k2 := by
  have hdata : b1.data ++ '/' :: k1.data = b2.data ++ '/' :: k2.data := by
    have h1 := congrArg String.data heq
    simpa [gcsKeyOf, String.data_append] using h1
  obtain ⟨hb, hk⟩ := append_slash_cancel b1.data b2.data k1.data k2.data hb1 hb2 hdata
  exact ⟨String.ext hb, String.ext hk⟩

/-- Witness for the amended C8 at slash-free bucket names. -/
theorem c8_gcsKeyOf_injective_noSlash_witness :
    '/' ∉ ("raw-logs" : String).data ∧ '/' ∉ ("cold-logs" : String).data ∧
    (gcsKeyOf "raw-logs" "x" = gcsKeyOf "raw-logs" "x" →
      ("raw-logs" : String) = "raw-logs" ∧ ("x" : String) = "x") := by
  refine ⟨by decide, by decide, ?_⟩
  intro h
  exact c8_gcsKeyOf_injective_noSlash "raw-logs" "x" "raw-logs" "x" (by decide) (by decide) h

/-- A present source object yields its normalized metadata. -/
theorem getS3Metadata_found (w : World) (b k : String) (o : S3Object)
    (hsrc : alookup w.s3 (b, k) = some o) :
    getS3Metadata w b k = Except.ok ⟨stripQuotes o.etag, o.size, o.lastModified⟩ := by
  simp [getS3Metadata, headObject, hsrc]

/-- A missing source object yields the distinguished not-found error. -/
theorem getS3Metadata_missing (w : World) (b k : String)
    (habs : alookup w.s3 (b, k) = none) :
    getS3Metadata w b k = Except.error ⟨ErrFamily.fileNotFoundError, "",
      "S3 object not found: s3://" ++ b ++ "/" ++ k⟩ := by
  simp [getS3Metadata, headObject, habs]

/-- Shape of a `replicate` run that skips: check true means no upload and
an unchanged world. -/
theorem replicate_skip_eq (cfg : Config) (w : World) (b k : String) (meta : S3Meta)
    (hmeta : getS3Metadata w b k = Except.ok meta) (hpos : 1 ≤ cfg.maxRetries)
    (hchk : checkGcsExistsW w (gcsKeyOf b k) meta.etag = true) :
    replicate cfg w b k = ⟨Except.ok (ReplicateResponse.skipped
      "File already exists with same content"
      ("gs://" ++ cfg.gcsBucketName ++ "/" ++ gcsKeyOf b k)), w, 0, 0⟩ := by
  have hi : inspectTrace cfg w b k = ⟨Except.ok (some meta), 1, []⟩ :=
    retryWithBackoff_ok cfg.maxRetries _ meta hpos hmeta
  simp [replicate, inspectTrace] at hi ⊢
  simp [hi, hchk]

/-- Shape of a `replicate` run that uploads: check false and a successful
stream upload produce the success record, the updated world, one upload
invocation, and the uploaded byte count. -/
theorem replicate_upload_eq (cfg : Config) (w : World) (b k : String) (meta : S3Meta)
    (w' : World) (n : Nat)
    (hmeta : getS3Metadata w b k = Except.ok meta) (hpos : 1 ≤ cfg.maxRetries)
    (hchk : checkGcsExistsW w (gcsKeyOf b k) meta.etag = false)
    (hup : streamUpload w b k (gcsKeyOf b k) meta = Except.ok (w', n)) :
    replicate cfg w b k = ⟨Except.ok (ReplicateResponse.success
      "File replicated successfully" ("s3://" ++ b ++ "/" ++ k)
      ("gs://" ++ cfg.gcsBucketName ++ "/" ++ gcsKeyOf b k) meta.size), w', 1, n⟩ := by
  have hi : inspectTrace cfg w b k = ⟨Except.ok (some meta), 1, []⟩ :=
    retryWithBackoff_ok cfg.maxRetries _ meta hpos hmeta
  have hu : uploadTrace cfg w b k (gcsKeyOf b k) meta = ⟨Except.ok (some (w', n)), 1, []⟩ :=
    retryWithBackoff_ok cfg.maxRetries _ _ hpos hup
  simp [replicate, hi, hchk, hu]

/-- Shape of a `replicate` run whose source is missing: the not-found
error is converted to a `ValueError` that escapes, with no upload. -/
theorem replicate_notfound_eq (cfg : Config) (w : World) (b k : String)
    (habs : alookup w.s3 (b, k) = none) (hpos : 1 ≤ cfg.maxRetries) :
    replicate cfg w b k = ⟨Except.error ⟨ErrFamily.valueError, "",
      "S3 object not found: s3://" ++ b ++ "/" ++ k⟩, w, 0, 0⟩ := by
  have hm := getS3Metadata_missing w b k habs
  have hi : inspectTrace cfg w b k = ⟨Except.error ⟨ErrFamily.fileNotFoundError, "",
      "S3 object not found: s3://" ++ b ++ "/" ++ k⟩, 1, []⟩ :=
    retryWithBackoff_uncaught cfg.maxRetries _ _ hpos hm rfl
  simp [replicate, hi]

/-- C1 counterexample: with the default budget and an empty source store,
`replicate` does not return a failure-status record — the converted
`ValueError` escapes it as an exception (the response type the code builds
has only skip and success shapes). -/
theorem c1_replicate_missing_source_cex :
    (replicate cfg0 emptyWorld "raw-logs" "2024/01/01.log").result =
      Except.error ⟨ErrFamily.valueError, "",
        "S3 object not found: s3://raw-logs/2024/01/01.log"⟩ := by
  have h := replicate_notfound_eq cfg0 emptyWorld "raw-logs" "2024/01/01.log" rfl (by decide)
  rw [h]
  rfl

/-- C1 (amended): `replicate` returns a record only for the skip and
success outcomes; failures escape it as exceptions — a missing source
raises a `ValueError` (served as 404 by the endpoint), and persistent
failures re-raise the last error — rather than producing a returned
failure-status record. -/
theorem c1_replicate_failures_escape (cfg : Config) (w : World) (b k : String)
    (habs : alookup w.s3 (b, k) = none) (hpos : 1 ≤ cfg.maxRetries) :
    (replicate cfg w b k).result = Except.error ⟨ErrFamily.valueError, "",
      "S3 object not found: s3://" ++ b ++ "/" ++ k⟩ ∧
    (∀ r : ReplicateResponse, (replicate cfg w b k).result ≠ Except.ok r) ∧
    endpointStatus (replicate cfg w b k).result = 404 := by
  have h := replicate_notfound_eq cfg w b k habs hpos
  rw [h]
  refine ⟨rfl, ?_, rfl⟩
  intro r hr
  simp at hr

/-- Witness for the amended C1 at a concrete empty world. -/
theorem c1_replicate_failures_escape_witness :
    alookup emptyWorld.s3 ("logs", "a.txt") = none ∧ (1 : Int) ≤ cfg0.maxRetries ∧
    ((replicate cfg0 emptyWorld "logs" "a.txt").result = Except.error ⟨ErrFamily.valueError, "",
        "S3 object not found: s3://" ++ "logs" ++ "/" ++ "a.txt"⟩ ∧
     (∀ r : ReplicateResponse,
        (replicate cfg0 emptyWorld "logs" "a.txt").result ≠ Except.ok r) ∧
     endpointStatus (replicate cfg0 emptyWorld "logs" "a.txt").result = 404) :=
  ⟨rfl, by decide, c1_replicate_failures_escape cfg0 emptyWorld "logs" "a.txt" rfl (by decide)⟩

/-- C5: a missing source object makes the inspection raise the
distinguished not-found error, which lies outside every caught family,
so the retry wrapper makes exactly one inspection attempt with zero
retries and no waits, and the invocation terminates in the 404-class
not-found outcome. -/
theorem c5_notfound_single_attempt (cfg : Config) (w : World) (b k : String)
    (habs : alookup w.s3 (b, k) = none) (hpos : 1 ≤ cfg.maxRetries) :
    getS3Metadata w b k = Except.error ⟨ErrFamily.fileNotFoundError, "",
      "S3 object not found: s3://" ++ b ++ "/" ++ k⟩ ∧
    classifyCaught ⟨ErrFamily.fileNotFoundError, "",
      "S3 object not found: s3://" ++ b ++ "/" ++ k⟩ = false ∧
    (inspectTrace cfg w b k).calls = 1 ∧
    (inspectTrace cfg w b k).waits = [] ∧
    endpointStatus (replicate cfg w b k).result = 404 := by
  have hm := getS3Metadata_missing w b k habs
  have hi : inspectTrace cfg w b k = ⟨Except.error ⟨ErrFamily.fileNotFoundError, "",
      "S3 object not found: s3://" ++ b ++ "/" ++ k⟩, 1, []⟩ :=
    retryWithBackoff_uncaught cfg.maxRetries _ _ hpos hm rfl
  have hr := replicate_notfound_eq cfg w b k habs hpos
  exact ⟨hm, rfl, by rw [hi], by rw [hi], by rw [hr]; rfl⟩

/-- Witness for C5 at a world holding one object and a missing key. -/
theorem c5_notfound_single_attempt_witness :
    alookup sampleWorld.s3 ("raw-logs", "missing.log") = none ∧
    (1 : Int) ≤ cfg0.maxRetries ∧
    (getS3Metadata sampleWorld "raw-logs" "missing.log" =
        Except.error ⟨ErrFamily.fileNotFoundError, "",
          "S3 object not found: s3://" ++ "raw-logs" ++ "/" ++ "missing.log"⟩ ∧
     classifyCaught ⟨ErrFamily.fileNotFoundError, "",
        "S3 object not found: s3://" ++ "raw-logs" ++ "/" ++ "missing.log"⟩ = false ∧
     (inspectTrace cfg0 sampleWorld "raw-logs" "missing.log").calls = 1 ∧
     (inspectTrace cfg0 sampleWorld "raw-logs" "missing.log").waits = [] ∧
     endpointStatus (replicate cfg0 sampleWorld "raw-logs" "missing.log").result = 404) :=
  ⟨by decide, by decide,
   c5_notfound_single_attempt cfg0 sampleWorld "raw-logs" "missing.log" (by decide) (by decide)⟩

/-- C6: with the source object present and a positive retry budget,
replicating the same pair a second time — after the first call the
destination holds content with the same identity tag — yields a skip on
the second call, with the stream-transfer step not invoked and zero bytes
transferred. -/
theorem c6_second_replicate_skips (cfg : Config) (w : World) (b k : String) (o : S3Object)
    (hsrc : alookup w.s3 (b, k) = some o) (hpos : 1 ≤ cfg.maxRetries) :
    (replicate cfg (replicate cfg w b k).world b k).result =
      Except.ok (ReplicateResponse.skipped "File already exists with same content"
        ("gs://" ++ cfg.gcsBucketName ++ "/" ++ gcsKeyOf b k)) ∧
    (replicate cfg (replicate cfg w b k).world b k).uploadCalls = 0 ∧
    (replicate cfg (replicate cfg w b k).world b k).bytesTransferred = 0 := by
  have hmeta := getS3Metadata_found w b k o hsrc
  by_cases hchk : checkGcsExistsW w (gcsKeyOf b k) (stripQuotes o.etag) = true
  · have h1 := replicate_skip_eq cfg w b k ⟨stripQuotes o.etag, o.size, o.lastModified⟩
      hmeta hpos hchk
    simp only [h1]
    exact ⟨trivial, trivial, trivial⟩
  · have hchk2 : checkGcsExistsW w (gcsKeyOf b k) (stripQuotes o.etag) = false := by
      simpa using hchk
    have hup : streamUpload w b k (gcsKeyOf b k) ⟨stripQuotes o.etag, o.size, o.lastModified⟩ =
        Except.ok (⟨w.s3, (gcsKeyOf b k,
          ⟨some [("s3_etag", stripQuotes o.etag), ("s3_bucket", b),
                 ("s3_key", k), ("replicated_at", w.now)],
           o.contentType.getD "application/octet-stream"⟩) :: w.gcs, w.now⟩, o.size) := by
      simp [streamUpload, hsrc]
    have h1 := replicate_upload_eq cfg w b k ⟨stripQuotes o.etag, o.size, o.lastModified⟩
      _ o.size hmeta hpos hchk2 hup
    simp only [h1]
    have hmeta' : getS3Metadata (⟨w.s3, (gcsKeyOf b k,
        ⟨some [("s3_etag", stripQuotes o.etag), ("s3_bucket", b),
               ("s3_key", k), ("replicated_at", w.now)],
         o.contentType.getD "application/octet-stream"⟩) :: w.gcs, w.now⟩ : World) b k =
        Except.ok ⟨stripQuotes o.etag, o.size, o.lastModified⟩ :=
      getS3Metadata_found _ b k o hsrc
    have hchk' : checkGcsExistsW (⟨w.s3, (gcsKeyOf b k,
        ⟨some [("s3_etag", stripQuotes o.etag), ("s3_bucket", b),
               ("s3_key", k), ("replicated_at", w.now)],
         o.contentType.getD "application/octet-stream"⟩) :: w.gcs, w.now⟩ : World)
        (gcsKeyOf b k) (stripQuotes o.etag) = true := by
      simp [checkGcsExistsW, checkGcsExists, gcsOpsOfWorld, alookup]
    have h2 := replicate_skip_eq cfg _ b k ⟨stripQuotes o.etag, o.size, o.lastModified⟩
      hmeta' hpos hchk'
    simp only [h2]
    exact ⟨trivial, trivial, trivial⟩

/-- Witness for C6 at a concrete one-object world: the second call skips
with zero upload invocations and zero bytes. -/
theorem c6_second_replicate_skips_witness :
    alookup sampleWorld.s3 ("raw-logs", "2024/01/01.log") = some sampleObject ∧
    (1 : Int) ≤ cfg0.maxRetries ∧
    ((replicate cfg0 (replicate cfg0 sampleWorld "raw-logs" "2024/01/01.log").world
        "raw-logs" "2024/01/01.log").result =
      Except.ok (ReplicateResponse.skipped "File already exists with same content"
        ("gs://" ++ cfg0.gcsBucketName ++ "/" ++ gcsKeyOf "raw-logs" "2024/01/01.log")) ∧
     (replicate cfg0 (replicate cfg0 sampleWorld "raw-logs" "2024/01/01.log").world
        "raw-logs" "2024/01/01.log").uploadCalls = 0 ∧
     (replicate cfg0 (replicate cfg0 sampleWorld "raw-logs" "2024/01/01.log").world
        "raw-logs" "2024/01/01.log").bytesTransferred = 0) :=
  ⟨by decide, by decide,
   c6_second_replicate_skips cfg0 sampleWorld "raw-logs" "2024/01/01.log" sampleObject
     (by decide) (by decide)⟩

/-- C7: a transfer that completes successfully returns the success record
and leaves destination provenance that reads back exactly the source
namespace, the source key, and the normalized content-identity tag used
for the transfer. -/
theorem c7_provenance_roundtrip (cfg : Config) (w : World) (b k : String) (o : S3Object)
    (hsrc : alookup w.s3 (b, k) = some o) (hpos : 1 ≤ cfg.maxRetries)
    (hchk : checkGcsExistsW w (gcsKeyOf b k) (stripQuotes o.etag) = false) :
    (replicate cfg w b k).result = Except.ok (ReplicateResponse.success
      "File replicated successfully" ("s3://" ++ b ++ "/" ++ k)
      ("gs://" ++ cfg.gcsBucketName ++ "/" ++ gcsKeyOf b k) o.size) ∧
    readProvenance (replicate cfg w b k).world (gcsKeyOf b k) "s3_etag" =
      some (stripQuotes o.etag) ∧
    readProvenance (replicate cfg w b k).world (gcsKeyOf b k) "s3_bucket" = some b ∧
    readProvenance (replicate cfg w b k).world (gcsKeyOf b k) "s3_key" = some k := by
  have hmeta := getS3Metadata_found w b k o hsrc
  have hup : streamUpload w b k (gcsKeyOf b k) ⟨stripQuotes o.etag, o.size, o.lastModified⟩ =
      Except.ok (⟨w.s3, (gcsKeyOf b k,
        ⟨some [("s3_etag", stripQuotes o.etag), ("s3_bucket", b),
               ("s3_key", k), ("replicated_at", w.now)],
         o.contentType.getD "application/octet-stream"⟩) :: w.gcs, w.now⟩, o.size) := by
    simp [streamUpload, hsrc]
  have h1 := replicate_upload_eq cfg w b k ⟨stripQuotes o.etag, o.size, o.lastModified⟩
    _ o.size hmeta hpos hchk hup
  simp only [h1]
  refine ⟨trivial, ?_, ?_, ?_⟩
  all_goals simp [readProvenance, alookup]

/-- Witness for C7 at a concrete one-object world with an empty
destination. -/
theorem c7_provenance_roundtrip_witness :
    alookup sampleWorld.s3 ("raw-logs", "2024/01/01.log") = some sampleObject ∧
    (1 : Int) ≤ cfg0.maxRetries ∧
    checkGcsExistsW sampleWorld (gcsKeyOf "raw-logs" "2024/01/01.log")
      (stripQuotes sampleObject.etag) = false ∧
    ((replicate cfg0 sampleWorld "raw-logs" "2024/01/01.log").result =
      Except.ok (ReplicateResponse.success "File replicated successfully"
        ("s3://" ++ "raw-logs" ++ "/" ++ "2024/01/01.log")
        ("gs://" ++ cfg0.gcsBucketName ++ "/" ++ gcsKeyOf "raw-logs" "2024/01/01.log")
        sampleObject.size) ∧
     readProvenance (replicate cfg0 sampleWorld "raw-logs" "2024/01/01.log").world
        (gcsKeyOf "raw-logs" "2024/01/01.log") "s3_etag" =
          some (stripQuotes sampleObject.etag) ∧
     readProvenance (replicate cfg0 sampleWorld "raw-logs" "2024/01/01.log").world
        (gcsKeyOf "raw-logs" "2024/01/01.log") "s3_bucket" = some "raw-logs" ∧
     readProvenance (replicate cfg0 sampleWorld "raw-logs" "2024/01/01.log").world
        (gcsKeyOf "raw-logs" "2024/01/01.log") "s3_key" = some "2024/01/01.log") :=
  ⟨by decide, by decide, by decide,
   c7_provenance_roundtrip cfg0 sampleWorld "raw-logs" "2024/01/01.log" sampleObject
     (by decide) (by decide) (by decide)⟩
